import Mathlib

/-!
Verification of the LeetCode-to-Notion Chrome extension.

This file gives a shallow embedding, in Lean 4, of the pure logic of the
extension's popup (`popup.js`, class `LeetCodeNotionApp`), content script
(`content.js`, class `LeetCodeExtractor`) and options page (`options.js`,
class `SettingsManager`). Browser effects (chrome.storage, fetch, the DOM)
are made explicit: storage becomes an association list threaded through the
functions, `Date.now()` becomes a `now : Nat` parameter, and each `fetch`
becomes a parameter describing the outcome of that network call
(rejection, or a response with a status / body). The definitions follow
the JavaScript control flow statement by statement.
-/

set_option autoImplicit false

/-! ## Cache model (popup.js: CACHE_TTL, getCachedPage, cachePage)

`chrome.storage.local` is modelled as an association list from string keys
to cache entries; `storageGet`, `storageSet` and `storageRemove` model
`get`, `set` and `remove` with exact string-key equality.
-/

/-- popup.js: `const CACHE_TTL = 60 * 60 * 1000` (1 hour, in ms). -/
def CACHE_TTL : Nat := 60 * 60 * 1000

/-- The cached value stored under `problem_${number}`:
`{ pageId, url, timestamp }`. -/
structure CacheEntry where
  pageId : String
  url : String
  timestamp : Nat
deriving DecidableEq

/-- The state of `chrome.storage.local`, restricted to cache entries. -/
abbrev Store : Type := List (String × CacheEntry)

/-- Model of `chrome.storage.local.get(key)`: first entry with exactly
this key. -/
def storageGet : Store → String → Option CacheEntry
  | [], _ => none
  | (k, v) :: rest, key => if key = k then some v else storageGet rest key

/-- Model of `chrome.storage.local.remove(key)`: drop every entry with
this key. -/
def storageRemove : Store → String → Store
  | [], _ => []
  | (k, v) :: rest, key =>
    if k = key then storageRemove rest key
    else (k, v) :: storageRemove rest key

/-- Model of the storage write `chrome.storage.local.set`: overwrite
the key. -/
def storageSet (store : Store) (key : String) (e : CacheEntry) : Store :=
  (key, e) :: storageRemove store key

/-- popup.js: the cache key `` `problem_${problemNumber}` ``. -/
def cacheKey (problemNumber : Nat) : String :=
  "problem_" ++ toString problemNumber

/-- popup.js `getCachedPage(problemNumber)`: read the entry; if absent
return null; if its age `Date.now() - (cached.timestamp || 0)` exceeds
`CACHE_TTL`, remove it and return null; otherwise return it. The result
pairs the returned value with the storage state after the call. -/
def getCachedPage (store : Store) (now : Nat) (problemNumber : Nat) :
    Option CacheEntry × Store :=
  let key := cacheKey problemNumber
  match storageGet store key with
  | none => (none, store)
  | some cached =>
    let age := now - cached.timestamp
    if age > CACHE_TTL then (none, storageRemove store key)
    else (some cached, store)

/-- popup.js `cachePage(problemNumber, pageId, url)`: store
`{ pageId, url, timestamp: Date.now() }` under `problem_${problemNumber}`. -/
def cachePage (store : Store) (now : Nat) (problemNumber : Nat)
    (pageId url : String) : Store :=
  storageSet store (cacheKey problemNumber)
    { pageId := pageId, url := url, timestamp := now }

/-! ## Executable string helpers

Lean's built-in `String.trim`, `String.splitOn`, `String.toLower` and
friends are implemented with well-founded recursion over byte positions
and do not reduce inside the kernel, so the JavaScript string operations
are modelled by structurally recursive functions on `List Char`. -/

/-- JavaScript `String.prototype.trim`: drop leading and trailing
whitespace. -/
def trimChars (l : List Char) : List Char :=
  ((l.dropWhile Char.isWhitespace).reverse.dropWhile Char.isWhitespace).reverse

/-- JavaScript `value.trim()` on a string. -/
def jsTrim (s : String) : String :=
  String.mk (trimChars s.toList)

/-- JavaScript `str.split(sep)` for a one-character separator. -/
def splitChar (sep : Char) : List Char → List (List Char)
  | [] => [[]]
  | c :: rest =>
    let r := splitChar sep rest
    if c = sep then [] :: r
    else
      match r with
      | [] => [[c]]
      | h :: t => (c :: h) :: t

/-- JavaScript `String.prototype.toLowerCase` restricted to ASCII (all
schema alias names in the source are ASCII or untouched CJK). -/
def lowerChar (c : Char) : Char :=
  if 'A' ≤ c && c ≤ 'Z' then Char.ofNat (c.toNat + 32) else c

/-- Lower-case a string character by character. -/
def jsToLower (s : String) : String :=
  String.mk (s.toList.map lowerChar)

/-- Tests whether the list `bs` begins with the list `as`. -/
def listStartsWith : List Char → List Char → Bool
  | [], _ => true
  | _ :: _, [] => false
  | a :: as, b :: bs => a = b && listStartsWith as bs

/-- JavaScript `str.startsWith(pre)`. -/
def jsStartsWith (s pre : String) : Bool :=
  listStartsWith pre.toList s.toList

/-- JavaScript `hay.includes(needle)`: `needle` occurs as a contiguous
substring of `hay`. -/
def strIncludes (hay needle : String) : Bool :=
  (List.range (hay.toList.length + 1)).any fun i =>
    listStartsWith needle.toList (hay.toList.drop i)

/-! ## Property resolution (popup.js: findProperty) -/

/-- popup.js `findProperty(properties, aliases, allowedTypes = [])`: walk
the schema's `(name, type)` entries in declared order and return the first
whose name case-insensitively equals or contains some alias and whose type
is allowed (any type when `allowedTypes` is empty). -/
def findProperty (properties : List (String × String)) (aliases : List String)
    (allowedTypes : List String) : Option (String × String) :=
  properties.find? fun p =>
    (aliases.any fun a =>
      jsToLower p.1 == jsToLower a || strIncludes (jsToLower p.1) (jsToLower a)) &&
    (allowedTypes.isEmpty || allowedTypes.contains p.2)

/-! ## Manual time parsing (popup.js: parseTimeToMs) -/

/-- The regex `/^\d+$/`: nonempty and all ASCII digits. -/
def allDigits (l : List Char) : Bool :=
  !l.isEmpty && l.all Char.isDigit

/-- JavaScript `Number(part)` on an all-digits string: its decimal value. -/
def digitsToNat (l : List Char) : Nat :=
  l.foldl (fun acc c => acc * 10 + (c.toNat - 48)) 0

/-- popup.js `parseTimeToMs(value)`: trim, split on `:`, require one to
three all-digit parts, read them as `HH:MM:SS` / `MM:SS` / `SS`, reject
minutes above 59 only in the three-part form and seconds above 59 in the
multi-part forms, and return the duration in milliseconds (null on any
rejection). -/
def parseTimeToMs (value : String) : Option Nat :=
  let raw := trimChars value.toList
  if raw.isEmpty then none
  else
    let parts := (splitChar ':' raw).map trimChars
    if parts.length < 1 || parts.length > 3 then none
    else if parts.any fun p => !allDigits p then none
    else
      let hours :=
        if parts.length = 3 then digitsToNat parts.headI else 0
      let minutes :=
        if parts.length = 3 then digitsToNat (parts.getD 1 [])
        else if parts.length = 2 then digitsToNat parts.headI
        else 0
      let seconds :=
        if parts.length = 3 then digitsToNat (parts.getD 2 [])
        else if parts.length = 2 then digitsToNat (parts.getD 1 [])
        else digitsToNat parts.headI
      if parts.length = 3 && minutes > 59 then none
      else if seconds > 59 && parts.length > 1 then none
      else some ((hours * 3600 + minutes * 60 + seconds) * 1000)

/-! ## Settings validation (options.js: SettingsManager.saveSettings) -/

/-- options.js: `token.startsWith("secret_") || token.startsWith("ntn_")`. -/
def isSupportedToken (token : String) : Bool :=
  jsStartsWith token "secret_" || jsStartsWith token "ntn_"

/-- The character class `[a-f0-9]` with the `i` flag. -/
def isHexChar (c : Char) : Bool :=
  ('0' ≤ c && c ≤ '9') || ('a' ≤ c && c ≤ 'f') || ('A' ≤ c && c ≤ 'F')

/-- options.js: `databaseId.replace(hyphenRegexGlobal, "")` — remove
every `-`. -/
def stripHyphens (s : String) : String :=
  String.mk (s.toList.filter fun c => c ≠ '-')

/-- The regex test `/^[a-f0-9]+$/i.test(s)`: nonempty and all hex. -/
def hexTest (s : String) : Bool :=
  !s.toList.isEmpty && s.toList.all isHexChar

/-- options.js `saveSettings()`, reduced to its accept/reject decision:
trim both inputs; reject if either is empty; reject unless the token
starts with `secret_` or `ntn_`; reject if the raw identifier's length is
not 32 or its hyphen-stripped form fails the `^[a-f0-9]+$` (ignore-case)
test; otherwise persist the settings (accept). Note the length test runs
on the identifier BEFORE hyphens are stripped. -/
def saveSettingsAccepts (tokenInput dbInput : String) : Bool :=
  let token := jsTrim tokenInput
  let databaseId := jsTrim dbInput
  if token = "" || databaseId = "" then false
  else if !isSupportedToken token then false
  else if !(databaseId.length = 32 : Bool) || !hexTest (stripHyphens databaseId) then
    false
  else true

/-! ## Tag extraction (content.js: LeetCodeExtractor.extractTags)

The DOM is abstracted as, per CSS selector in the source's selector list,
the list of `textContent`s of the elements that selector matches
(`selectorResults`), and as the list of names captured by the
`"name":"([^"]+)"` regex from the first `<script>` whose text contains
`topicTags` (`scriptTagNames`, empty when no script matches). -/

/-- The `elements.forEach` body: push `el.textContent.trim()` when
nonempty and not already present (`!tags.includes(tag)`). -/
def pushTag (acc : List String) (t0 : String) : List String :=
  let t := jsTrim t0
  if t ≠ "" && !(decide (t ∈ acc)) then acc ++ [t] else acc

/-- One selector's `elements.forEach(...)` over the tag list. -/
def addDomTags (tags : List String) (els : List String) : List String :=
  els.foldl pushTag tags

/-- The `for (const selector of selectors)` loop: skip selectors with no
elements; after adding a selector's tags, stop as soon as `tags` is
nonempty. -/
def domTagsLoop : List String → List (List String) → List String
  | tags, [] => tags
  | tags, els :: rest =>
    if els.length > 0 then
      let tags2 := addDomTags tags els
      if tags2.length > 0 then tags2 else domTagsLoop tags2 rest
    else domTagsLoop tags rest

/-- content.js `extractTags()`: the DOM-selector loop first; if it
produced no tags, fall back to the embedded-script path, which pushes
every captured `name` without any duplicate check. -/
def extractTags (selectorResults : List (List String))
    (scriptTagNames : List String) : List String :=
  let tags := domTagsLoop [] selectorResults
  if tags.length = 0 then tags ++ scriptTagNames else tags

/-! ## Code reconstruction (content.js: extractCodeFromDom)

A `.view-line` element is abstracted as its parsed `style.top` and
`style.left` pixel offsets and its `innerText`. The source parses the
offsets with `parseFloat`; the claims only exercise whole-pixel offsets,
so they are modelled as integers. -/

/-- One visual line of the Monaco editor. -/
structure VisualLine where
  top : Int
  left : Int
  text : String
deriving DecidableEq

/-- The sort comparator
`(a, b) => a.top - b.top || a.left - b.left || a.index - b.index` as a
total order on (DOM index, line) pairs. -/
def lineLE (a b : Nat × VisualLine) : Bool :=
  if a.2.top ≠ b.2.top then decide (a.2.top < b.2.top)
  else if a.2.left ≠ b.2.left then decide (a.2.left < b.2.left)
  else decide (a.1 ≤ b.1)

/-- Insert into a list sorted by `lineLE`. -/
def insertLine (x : Nat × VisualLine) : List (Nat × VisualLine) → List (Nat × VisualLine)
  | [] => [x]
  | y :: ys => if lineLE x y then x :: y :: ys else y :: insertLine x ys

/-- JavaScript `Array.prototype.sort` with the three-way comparator (a strict total
order, so any correct sort produces this result). -/
def sortLines (l : List (Nat × VisualLine)) : List (Nat × VisualLine) :=
  l.foldr insertLine []

/-- The normalisation `line.innerText.replace(/ /g, " ")`. -/
def replaceNbsp (s : String) : String :=
  String.mk (s.toList.map fun c => if c = ' ' then ' ' else c)

/-- JavaScript `lines.join("\n")`. -/
def joinLines : List String → String
  | [] => ""
  | [s] => s
  | s :: rest => s ++ "\n" ++ joinLines rest

/-- content.js `extractCodeFromDom()`, given the `.view-line` elements in
DOM order (the editor root was found): map each to its offsets and
nbsp-normalised text, sort by top, then left, then DOM index, join with
newline, trim; an empty result becomes null (`return code || null`). -/
def extractCodeFromDom (lines : List VisualLine) : Option String :=
  let indexed := lines.enum.map fun p =>
    (p.1, { p.2 with text := replaceNbsp p.2.text })
  let sorted := sortLines indexed
  let code := jsTrim (joinLines (sorted.map fun p => p.2.text))
  if code = "" then none else some code

/-! ## Network call outcomes

Each `fetch` in the source is modelled by a parameter of this type:
either the promise rejected (a network error), or a response arrived with
an `ok` flag and a parsed JSON body. -/

/-- Outcome of one `fetch` whose JSON body is read as `α`. -/
inductive FetchJson (α : Type) where
  | reject
  | resp (ok : Bool) (body : α)
deriving DecidableEq

/-- Outcome of the page-existence `fetch` in `checkPageExists`: a
rejection, or a response with a status code, `ok` flag, and the page's
`archived` / `in_trash` JSON fields. -/
inductive PageFetchOutcome where
  | networkError
  | response (status : Nat) (ok : Bool) (archived : Bool) (inTrash : Bool)
deriving DecidableEq

/-! ## Background cache verification (popup.js: checkPageExists,
validateCacheInBackground) -/

/-- The popup state the reconciler updates: `notionPageId`,
`notionPageUrl` and whether the already-saved badge is shown (`Found`). -/
structure AppUIState where
  notionPageId : Option String
  notionPageUrl : Option String
  alreadySaved : Bool
deriving DecidableEq

/-- popup.js `checkPageExists(pageId, settings)`: 404 means false, any
non-ok response means false, otherwise `!page.archived && !page.in_trash`;
the surrounding `try/catch` turns a rejected fetch into `return false`. -/
def checkPageExists : PageFetchOutcome → Bool
  | .networkError => false
  | .response status ok archived inTrash =>
    if status = 404 then false
    else if !ok then false
    else !archived && !inTrash

/-- popup.js `validateCacheInBackground(problemNumber, pageId, settings)`:
if `checkPageExists` reports false, remove `problem_${problemNumber}` from
storage and clear the page id, url and badge; otherwise leave everything
unchanged. Its own `try/catch` (fail silently) is unreachable here because
`checkPageExists` never throws. -/
def validateCacheInBackground (store : Store) (problemNumber : Nat)
    (outcome : PageFetchOutcome) (ui : AppUIState) : Store × AppUIState :=
  if checkPageExists outcome then (store, ui)
  else
    (storageRemove store (cacheKey problemNumber),
     { notionPageId := none, notionPageUrl := none, alreadySaved := false })

/-! ## Duplicate detection (popup.js: findPageInNotion, checkForDuplicate) -/

/-- A page returned by the database query (`data.results[0]`). -/
structure NotionPage where
  id : String
  url : String
  archived : Bool
  inTrash : Bool
deriving DecidableEq

/-- The alias list used for the problem-number schema property. -/
def numberAliases : List String :=
  ["Number", "Problem Number", "ID", "#", "编号"]

/-- popup.js `findPageInNotion(problemNumber, settings)`: fetch the
database schema (non-ok → null); resolve a number-typed property from
`numberAliases` (none → null); query by problem number (non-ok → null);
return the first result if present and neither archived nor trashed. The
outer `try/catch` turns any rejected fetch into null. `dbFetch` carries
the schema's `(name, type)` entries, `queryFetch` carries
`data.results[0]`. -/
def findPageInNotion (dbFetch : FetchJson (List (String × String)))
    (queryFetch : FetchJson (Option NotionPage)) : Option NotionPage :=
  match dbFetch with
  | .reject => none
  | .resp dbOk props =>
    if !dbOk then none
    else
      match findProperty props numberAliases ["number"] with
      | none => none
      | some _ =>
        match queryFetch with
        | .reject => none
        | .resp queryOk result =>
          if !queryOk then none
          else
            match result with
            | some page =>
              if !page.archived && !page.inTrash then some page else none
            | none => none

/-- The body of the `try` block in popup.js `checkForDuplicate()`:
read the cache (`getCachedPage`; `Except.error` models a rejected
`chrome.storage` read, which propagates into the block's catch); a cache
hit shows the badge; otherwise `findPageInNotion` decides. The result is
whether the already-saved indicator is shown. -/
def checkForDuplicateTry (cacheRead : Except Unit (Option CacheEntry))
    (dbFetch : FetchJson (List (String × String)))
    (queryFetch : FetchJson (Option NotionPage)) : Except Unit Bool :=
  match cacheRead with
  | .error e => .error e
  | .ok (some _) => .ok true
  | .ok none =>
    match findPageInNotion dbFetch queryFetch with
    | some _ => .ok true
    | none => .ok false

/-- popup.js `checkForDuplicate()`: without a problem number the badge is
hidden; without configured settings it returns untouched (no indicator);
otherwise the `try` block runs and its `catch` fails silently with the
badge hidden. The function never rejects: its result is a plain `Bool`
(the already-saved indicator). -/
def checkForDuplicate (number : Option Nat) (settingsOk : Bool)
    (cacheRead : Except Unit (Option CacheEntry))
    (dbFetch : FetchJson (List (String × String)))
    (queryFetch : FetchJson (Option NotionPage)) : Bool :=
  match number with
  | none => false
  | some _ =>
    if !settingsOk then false
    else
      match checkForDuplicateTry cacheRead dbFetch queryFetch with
      | .error _ => false
      | .ok shown => shown

/-! ## Record writing (popup.js: buildNotionProperties, buildNotionChildren,
sendToNotion)

Property payloads are modelled as the list of `(property name, raw field
value)` pairs the page-create body would carry; the JSON envelope that
`buildPropertyValue` wraps around each raw value is presentation and is
not re-modelled. -/

/-- The output of `prepareNotionData()`, as consumed by the writer. -/
structure NotionSaveData where
  problemName : String
  url : String
  number : Option Nat
  difficulty : String
  status : String
  notes : String
  language : String
  timeSpent : String
  dateCompleted : String
  neededHint : Bool
  canRedo : Bool
  tags : List String
  code : Option String
deriving DecidableEq

/-- A raw field value before JSON wrapping: a string or a checkbox flag. -/
inductive FieldVal where
  | str (s : String)
  | flag (b : Bool)
  | names (ts : List String)
deriving DecidableEq

/-- JavaScript truthiness of a field value (`field.value` in the
`prop.type === "checkbox" || field.value` guard). -/
def truthy : FieldVal → Bool
  | .str s => s ≠ ""
  | .flag b => b
  | .names ts => !ts.isEmpty

/-- The `fieldConfigs` array of `buildNotionProperties`, including the two
checkbox entries pushed afterwards: `(aliases, allowed types, value)`. -/
def fieldConfigs (data : NotionSaveData) :
    List (List String × List String × FieldVal) :=
  [ (["Difficulty", "难度"], (["select"], .str data.difficulty)),
    (["Status", "状态"], (["select"], .str data.status)),
    (["URL", "Link", "链接"], (["url"], .str data.url)),
    (["Time Spent", "耗时"], (["rich_text"], .str data.timeSpent)),
    (["Date Completed", "完成日期"], (["date"], .str data.dateCompleted)),
    (["Notes", "备注"], (["rich_text"], .str data.notes)),
    (["Language", "语言"], (["select"], .str data.language)),
    (["Needed Hint", "需要提示", "Hint", "Did I need a hint?"],
      (["checkbox"], .flag data.neededHint)),
    (["Can Redo", "可以重做", "Redo", "Could I redo it in a week"],
      (["checkbox"], .flag data.canRedo)) ]

/-- popup.js `buildNotionProperties(data, dbProperties)`: resolve a
title-typed property by alias or, failing that, take the first
title-typed schema entry; throw `"No title property found in database"`
if none. Then add the number property (when resolved and the number is
truthy), each `fieldConfigs` entry (checkboxes always, others only when
truthy), and the tags property (when resolved and the tag list is
nonempty). -/
def buildNotionProperties (data : NotionSaveData)
    (dbProperties : List (String × String)) :
    Except String (List (String × FieldVal)) :=
  let titleProp :=
    match findProperty dbProperties ["Problem Name", "Name", "Title"] ["title"] with
    | some p => some p
    | none => dbProperties.find? fun p => p.2 == "title"
  match titleProp with
  | none => Except.error "No title property found in database"
  | some tp =>
    let props := [(tp.1, FieldVal.str data.problemName)]
    let props :=
      match findProperty dbProperties numberAliases ["number"], data.number with
      | some np, some n =>
        if n ≠ 0 then props ++ [(np.1, FieldVal.str (toString n))] else props
      | _, _ => props
    let props := (fieldConfigs data).foldl
      (fun acc fc =>
        match findProperty dbProperties fc.1 fc.2.1 with
        | some p =>
          if p.2 == "checkbox" || truthy fc.2.2 then acc ++ [(p.1, fc.2.2)]
          else acc
        | none => acc)
      props
    let props :=
      match findProperty dbProperties ["Tags", "Topics", "æ ‡ç­¾"] ["multi_select"] with
      | some tgp =>
        if data.tags.length > 0 then
          props ++ [(tgp.1, FieldVal.names data.tags)]
        else props
      | none => props
    Except.ok props

/-- The chunking loop of `buildNotionChildren`: slices of 2000 chars. -/
def chunk2000 (l : List Char) : List (List Char) :=
  if h : l = [] then []
  else l.take 2000 :: chunk2000 (l.drop 2000)
termination_by l.length
decreasing_by
  have hl : 0 < l.length := List.length_pos.mpr h
  have h2000 : 0 < 2000 := Nat.succ_pos 1999
  simpa [List.length_drop] using Nat.sub_lt hl h2000

/-- popup.js `buildNotionChildren(data)`: no code block when `data.code`
is null, otherwise one code block holding the 2000-char chunks. -/
def buildNotionChildren (data : NotionSaveData) : List (List String) :=
  match data.code with
  | none => []
  | some code => [(chunk2000 code.toList).map String.mk]

/-- popup.js `sendToNotion(data, settings)`: fetch the database schema (a
rejection propagates; a non-ok response throws its error message); build
the properties (a missing title property throws); then POST the
page-create request. The second component counts the page-creation
network writes issued. -/
def sendToNotion (data : NotionSaveData)
    (dbFetch : FetchJson (List (String × String)))
    (createFetch : FetchJson String) : Except String String × Nat :=
  match dbFetch with
  | .reject => (Except.error "TypeError: Failed to fetch", 0)
  | .resp dbOk props =>
    if !dbOk then (Except.error "Failed to fetch database schema", 0)
    else
      match buildNotionProperties data props with
      | .error e => (Except.error e, 0)
      | .ok _ =>
        match createFetch with
        | .reject => (Except.error "TypeError: Failed to fetch", 1)
        | .resp createOk page =>
          if createOk then (Except.ok page, 1)
          else (Except.error "Failed to create Notion page", 1)

/-! ## Helper lemmas -/

/-- Removing a key makes a subsequent read of that key miss. -/
theorem storageGet_remove (store : Store) (key : String) :
    storageGet (storageRemove store key) key = none := by
  induction store with
  | nil => rfl
  | cons p rest ih =>
    obtain ⟨k, v⟩ := p
    by_cases hk : k = key
    · simpa [storageRemove, hk] using ih
    · simp [storageRemove, hk, storageGet, Ne.symm hk, ih]

/-- Writing a key makes a subsequent read of that key hit. -/
theorem storageGet_set (store : Store) (key : String) (e : CacheEntry) :
    storageGet (storageSet store key e) key = some e := by
  simp [storageSet, storageGet]

/-- The step `pushTag` keeps the tag list duplicate-free. -/
theorem pushTag_nodup (acc : List String) (t0 : String) (h : acc.Nodup) :
    (pushTag acc t0).Nodup := by
  by_cases hmem : jsTrim t0 ∈ acc
  · simpa [pushTag, hmem] using h
  · by_cases hne : jsTrim t0 = ""
    · simpa [pushTag, hne] using h
    · simp [pushTag, hne, hmem, List.nodup_append, h]

/-- The selector loop body keeps the tag list duplicate-free. -/
theorem addDomTags_nodup (els : List String) :
    ∀ acc : List String, acc.Nodup → (addDomTags acc els).Nodup := by
  induction els with
  | nil => intro acc h; simpa [addDomTags] using h
  | cons t0 rest ih =>
    intro acc h
    have : addDomTags acc (t0 :: rest) = addDomTags (pushTag acc t0) rest := rfl
    rw [this]
    exact ih _ (pushTag_nodup acc t0 h)

/-- The whole DOM-selector loop keeps the tag list duplicate-free. -/
theorem domTagsLoop_nodup (sels : List (List String)) :
    ∀ tags : List String, tags.Nodup → (domTagsLoop tags sels).Nodup := by
  induction sels with
  | nil => intro tags h; simpa [domTagsLoop] using h
  | cons els rest ih =>
    intro tags h
    by_cases h1 : els.length > 0
    · by_cases h2 : (addDomTags tags els).length > 0
      · simpa [domTagsLoop, h1, h2] using addDomTags_nodup els tags h
      · simpa [domTagsLoop, h1, h2] using ih _ (addDomTags_nodup els tags h)
    · simpa [domTagsLoop, h1] using ih _ h

/-- A schema with no title-typed entry resolves no title property. -/
theorem findProperty_title_none (props : List (String × String))
    (h : ∀ p ∈ props, p.2 ≠ "title") :
    findProperty props ["Problem Name", "Name", "Title"] ["title"] = none ∧
    props.find? (fun p => p.2 == "title") = none := by
  constructor
  · induction props with
    | nil => rfl
    | cons p rest ih =>
      have hp : p.2 ≠ "title" := h p (List.mem_cons_self p rest)
      have hrest : ∀ q ∈ rest, q.2 ≠ "title" := fun q hq => h q (List.mem_cons_of_mem p hq)
      simpa [findProperty, List.find?, hp] using ih hrest
  · induction props with
    | nil => rfl
    | cons p rest ih =>
      have hp : p.2 ≠ "title" := h p (List.mem_cons_self p rest)
      have hrest : ∀ q ∈ rest, q.2 ≠ "title" := fun q hq => h q (List.mem_cons_of_mem p hq)
      simpa [List.find?_cons, hp] using ih hrest


/-! ## Claim theorems -/

/-- C3 (counterexample): the manual time parser does NOT reject
`"90:00"`; the two-part form leaves the minutes field unbounded, so it
parses to 5400000 ms. -/
theorem parseTimeToMs_90_00_accepted : parseTimeToMs "90:00" = some 5400000 := by
  decide

/-- C3 (amended): the manual time parser parses `"90:00"` to 5400000 ms
(the minutes-above-59 rejection applies only to the three-part HH:MM:SS
form, as `"1:90:00"` shows), parses `"1:30:00"` to exactly 5400000 ms,
and parses the bare-seconds input `"45"` to exactly 45000 ms. -/
theorem parseTimeToMs_values :
    parseTimeToMs "90:00" = some 5400000 ∧
    parseTimeToMs "1:30:00" = some 5400000 ∧
    parseTimeToMs "45" = some 45000 ∧
    parseTimeToMs "1:90:00" = none := by
  decide

/-- C4 (counterexample): with declaration order
`[Needed Hint Status, Status]` (both select), resolving aliases
`["Status"]` returns the substring match `"Needed Hint Status"`, not the
exact match `"Status"` — resolution does not prefer exact matches. -/
theorem findProperty_substring_shadows_exact :
    findProperty [("Needed Hint Status", "select"), ("Status", "select")]
      ["Status"] ["select"] = some ("Needed Hint Status", "select") := by
  decide

/-- C4 (amended): property resolution returns the FIRST schema property
in declared order whose name case-insensitively equals or contains an
alias (and whose type is allowed); there is no preference for exact
matches, so aliases `["Status"]` over the two select properties resolve
to whichever of `"Status"` / `"Needed Hint Status"` is declared first. -/
theorem findProperty_first_declared_wins :
    findProperty [("Status", "select"), ("Needed Hint Status", "select")]
      ["Status"] ["select"] = some ("Status", "select") ∧
    findProperty [("Needed Hint Status", "select"), ("Status", "select")]
      ["Status"] ["select"] = some ("Needed Hint Status", "select") := by
  decide

/-- C5: a cache entry whose age exceeds the 1-hour TTL makes `get`
return absent and removes the entry; a second `get` for the same key also
returns absent with the store unchanged (no error — the function is
total); and `get` never returns a partially-valid entry: its result is
absent or exactly the stored entry. -/
theorem getCachedPage_expired_evicts (store : Store) (now n : Nat) (e : CacheEntry)
    (hget : storageGet store (cacheKey n) = some e)
    (hexp : now - e.timestamp > CACHE_TTL) :
    (getCachedPage store now n).1 = none ∧
    storageGet (getCachedPage store now n).2 (cacheKey n) = none ∧
    getCachedPage (getCachedPage store now n).2 now n =
      (none, (getCachedPage store now n).2) ∧
    ∀ (store2 : Store) (now2 n2 : Nat),
      (getCachedPage store2 now2 n2).1 = none ∨
      (getCachedPage store2 now2 n2).1 = storageGet store2 (cacheKey n2) := by
  have hrun : getCachedPage store now n = (none, storageRemove store (cacheKey n)) := by
    simp [getCachedPage, hget, hexp]
  refine ⟨by simp [hrun], by simp [hrun, storageGet_remove], ?_, ?_⟩
  · rw [hrun]
    simp [getCachedPage, storageGet_remove]
  · intro store2 now2 n2
    unfold getCachedPage
    cases hg : storageGet store2 (cacheKey n2) with
    | none => left; simp [hg]
    | some c =>
      by_cases ha : now2 - c.timestamp > CACHE_TTL
      · left; simp [hg, ha]
      · right; simp [hg, ha]

/-- C5 (witness): a concrete expired entry for problem 1, TTL exceeded by
one millisecond. -/
theorem getCachedPage_expired_evicts_witness :
    storageGet [("problem_1", (⟨"p", "u", 0⟩ : CacheEntry))] (cacheKey 1) =
      some ⟨"p", "u", 0⟩ ∧
    3600001 - (⟨"p", "u", 0⟩ : CacheEntry).timestamp > CACHE_TTL ∧
    (getCachedPage [("problem_1", ⟨"p", "u", 0⟩)] 3600001 1).1 = none :=
  ⟨by decide, by decide,
   (getCachedPage_expired_evicts [("problem_1", ⟨"p", "u", 0⟩)] 3600001 1
      ⟨"p", "u", 0⟩ (by decide) (by decide)).1⟩

/-- C6: writing a cache entry with `cachePage` and reading it back with
`getCachedPage` within the TTL returns an entry with the same page id and
url (and the write-time timestamp). -/
theorem cachePage_roundtrip (store : Store) (now later n : Nat)
    (pageId url : String) (h : later - now ≤ CACHE_TTL) :
    (getCachedPage (cachePage store now n pageId url) later n).1 =
      some { pageId := pageId, url := url, timestamp := now } := by
  have hget : storageGet (cachePage store now n pageId url) (cacheKey n) =
      some { pageId := pageId, url := url, timestamp := now } :=
    storageGet_set store (cacheKey n) _
  have hno : ¬ (later - now > CACHE_TTL) := Nat.not_lt.mpr h
  simp [getCachedPage, hget, hno]

/-- C6 (witness): a concrete round-trip two milliseconds after the write. -/
theorem cachePage_roundtrip_witness :
    (7 : Nat) - 5 ≤ CACHE_TTL ∧
    (getCachedPage (cachePage [] 5 1 "pid" "https://notion.so/pid") 7 1).1 =
      some ⟨"pid", "https://notion.so/pid", 5⟩ :=
  ⟨by decide, cachePage_roundtrip [] 5 7 1 "pid" "https://notion.so/pid" (by decide)⟩

/-- C7: code-line reconstruction sorts visual lines by top, then left,
then DOM index, and joins with newline: every input permutation of the
three lines `{top 40, left 0, "b"}`, `{top 0, left 0, "a"}`,
`{top 40, left 10, "c"}` reconstructs to `"a\nb\nc"`. -/
theorem extractCodeFromDom_orders_lines :
    extractCodeFromDom [⟨40, 0, "b"⟩, ⟨0, 0, "a"⟩, ⟨40, 10, "c"⟩] = some "a\nb\nc" ∧
    extractCodeFromDom [⟨40, 0, "b"⟩, ⟨40, 10, "c"⟩, ⟨0, 0, "a"⟩] = some "a\nb\nc" ∧
    extractCodeFromDom [⟨0, 0, "a"⟩, ⟨40, 0, "b"⟩, ⟨40, 10, "c"⟩] = some "a\nb\nc" ∧
    extractCodeFromDom [⟨0, 0, "a"⟩, ⟨40, 10, "c"⟩, ⟨40, 0, "b"⟩] = some "a\nb\nc" ∧
    extractCodeFromDom [⟨40, 10, "c"⟩, ⟨0, 0, "a"⟩, ⟨40, 0, "b"⟩] = some "a\nb\nc" ∧
    extractCodeFromDom [⟨40, 10, "c"⟩, ⟨40, 0, "b"⟩, ⟨0, 0, "a"⟩] = some "a\nb\nc" := by
  decide

/-- C1 (counterexample): with problem 1 cached and the reconciler in the
Found state, a network error during the background existence check DOES
evict the cache entry and transition to NotFound: `checkPageExists` maps
a rejected fetch to false, so the failure is not swallowed. -/
theorem validateCache_networkError_evicts :
    validateCacheInBackground [("problem_1", ⟨"pid", "purl", 0⟩)] 1
      PageFetchOutcome.networkError ⟨some "pid", some "purl", true⟩ =
      ([], ⟨none, none, false⟩) := by
  decide

/-- C1 (amended): every failed existence check drives the reconciler to
NotFound and evicts the cache entry, and the state stays Found only when
the check succeeds: the first part evicts and clears Found for EVERY
outcome the check maps to false; the second part preserves store and
state for every outcome the check maps to true; the third part
characterizes the successful outcomes exactly — an OK response with a
non-404 status for a page that is neither archived nor trashed — so a
network error, a 404, a non-ok response, an archived page and a trashed
page all evict alike. -/
theorem validateCache_failure_evicts (store : Store) (n : Nat) (ui : AppUIState) :
    (∀ outcome : PageFetchOutcome,
       checkPageExists outcome = false →
       (validateCacheInBackground store n outcome ui).2.alreadySaved = false ∧
       storageGet (validateCacheInBackground store n outcome ui).1
         (cacheKey n) = none) ∧
    (∀ outcome : PageFetchOutcome,
       checkPageExists outcome = true →
       validateCacheInBackground store n outcome ui = (store, ui)) ∧
    ∀ outcome : PageFetchOutcome,
      checkPageExists outcome = true ↔
        ∃ status : Nat, status ≠ 404 ∧
          outcome = PageFetchOutcome.response status true false false := by
  refine ⟨fun outcome h => ⟨?_, ?_⟩, fun outcome h => ?_, fun outcome => ?_⟩
  · simp [validateCacheInBackground, h]
  · simp [validateCacheInBackground, h, storageGet_remove]
  · simp [validateCacheInBackground, h]
  · cases outcome with
    | networkError => simp [checkPageExists]
    | response status ok archived inTrash =>
      by_cases h4 : status = 404
      · subst h4
        constructor
        · intro hfalse
          simp [checkPageExists] at hfalse
        · rintro ⟨x, hx, hEq⟩
          injection hEq with e1 e2 e3 e4
          exact absurd e1.symm hx
      · cases ok <;> cases archived <;> cases inTrash <;>
          simp [checkPageExists, h4]

/-- C1 (witness): a network error on a cached Found state evicts the
entry and clears the badge, while a successful 200 check on an intact
page preserves the store and the Found state. -/
theorem validateCache_failure_evicts_witness :
    checkPageExists PageFetchOutcome.networkError = false ∧
    (validateCacheInBackground [("problem_1", ⟨"pid", "purl", 0⟩)] 1
       PageFetchOutcome.networkError
       ⟨some "pid", some "purl", true⟩).2.alreadySaved = false ∧
    checkPageExists (PageFetchOutcome.response 200 true false false) = true ∧
    validateCacheInBackground [] 1 (PageFetchOutcome.response 200 true false false)
      ⟨none, none, true⟩ = ([], ⟨none, none, true⟩) :=
  ⟨by decide,
   ((validateCache_failure_evicts [("problem_1", ⟨"pid", "purl", 0⟩)] 1
       ⟨some "pid", some "purl", true⟩).1 PageFetchOutcome.networkError (by decide)).1,
   by decide,
   (validateCache_failure_evicts [] 1 ⟨none, none, true⟩).2.1
     (PageFetchOutcome.response 200 true false false) (by decide)⟩

/-- C2: the duplicate check never rejects — a failed storage read makes
the try block's outcome an error, which the catch degrades to the
NotFound outcome — and every failing step (rejected cache read, rejected
or non-ok schema fetch, schema without a number-typed property, rejected
or non-ok query) yields NotFound (no already-saved indicator). -/
theorem checkForDuplicate_degrades (number : Option Nat) (settingsOk : Bool)
    (queryFetch : FetchJson (Option NotionPage)) :
    (∀ dbFetch : FetchJson (List (String × String)),
       checkForDuplicateTry (Except.error ()) dbFetch queryFetch = Except.error () ∧
       checkForDuplicate number settingsOk (Except.error ()) dbFetch queryFetch = false) ∧
    checkForDuplicate number settingsOk (Except.ok none) .reject queryFetch = false ∧
    (∀ props : List (String × String),
       checkForDuplicate number settingsOk (Except.ok none) (.resp false props)
         queryFetch = false) ∧
    (∀ props : List (String × String),
       findProperty props numberAliases ["number"] = none →
       checkForDuplicate number settingsOk (Except.ok none) (.resp true props)
         queryFetch = false) ∧
    (∀ props : List (String × String),
       checkForDuplicate number settingsOk (Except.ok none) (.resp true props)
         FetchJson.reject = false) ∧
    ∀ (props : List (String × String)) (page : Option NotionPage),
      checkForDuplicate number settingsOk (Except.ok none) (.resp true props)
        (.resp false page) = false := by
  refine ⟨fun dbFetch => ⟨rfl, ?_⟩, ?_, fun props => ?_, fun props hp => ?_,
    fun props => ?_, fun props page => ?_⟩
  · cases number <;> cases settingsOk <;> rfl
  · cases number <;> cases settingsOk <;> rfl
  · cases number <;> cases settingsOk <;> rfl
  · cases number <;> cases settingsOk <;>
      simp [checkForDuplicate, checkForDuplicateTry, findPageInNotion, hp]
  · cases number <;> cases settingsOk <;>
      cases hfp : findProperty props numberAliases ["number"] <;>
      simp [checkForDuplicate, checkForDuplicateTry, findPageInNotion, hfp]
  · cases number <;> cases settingsOk <;>
      cases hfp : findProperty props numberAliases ["number"] <;>
      simp [checkForDuplicate, checkForDuplicateTry, findPageInNotion, hfp]

/-- C2 (witness): a schema with no properties has no number property, and
the duplicate check for problem 1 reports NotFound. -/
theorem checkForDuplicate_degrades_witness :
    findProperty [] numberAliases ["number"] = none ∧
    checkForDuplicate (some 1) true (Except.ok none) (.resp true [])
      (.resp true none) = false :=
  ⟨rfl, (checkForDuplicate_degrades (some 1) true (.resp true none)).2.2.2.1 [] rfl⟩

/-- C8: a create request against a schema with no title-typed property
fails with the title-property error and issues no page-creation network
write (the write counter stays 0), whatever the create call would have
returned. -/
theorem sendToNotion_no_title (data : NotionSaveData)
    (props : List (String × String)) (createFetch : FetchJson String)
    (h : ∀ p ∈ props, p.2 ≠ "title") :
    sendToNotion data (.resp true props) createFetch =
      (Except.error "No title property found in database", 0) := by
  obtain ⟨h1, h2⟩ := findProperty_title_none props h
  simp [sendToNotion, buildNotionProperties, h1, h2]

/-- C8 (witness): the empty schema at a concrete problem record. -/
theorem sendToNotion_no_title_witness :
    (∀ p ∈ ([] : List (String × String)), p.2 ≠ "title") ∧
    sendToNotion
      ⟨"1. Two Sum", "https://leetcode.cn/problems/two-sum", some 1, "Easy",
        "Solved", "", "python", "1m 5s", "2026-01-01T00:00:00.000Z", false,
        false, [], none⟩
      (.resp true []) (.resp true "page") =
      (Except.error "No title property found in database", 0) :=
  ⟨by simp, sendToNotion_no_title _ [] _ (by simp)⟩

/-- Helper: the empty token starts with neither recognized prefix. -/
theorem isSupportedToken_empty : isSupportedToken "" = false := by decide

/-- Helper: the empty identifier does not have length 32. -/
theorem empty_length_not_32 : decide (("" : String).length = 32) = false := by decide

/-- C9 (counterexample): the 36-character hyphenated identifier
`12345678-1234-1234-1234-123456789abc` strips to exactly 32 hex
characters, yet validation rejects it (with a valid token), because the
length check runs before hyphens are stripped. -/
theorem saveSettings_rejects_hyphenated_id :
    (stripHyphens "12345678-1234-1234-1234-123456789abc").length = 32 ∧
    hexTest (stripHyphens "12345678-1234-1234-1234-123456789abc") = true ∧
    isSupportedToken "ntn_abcdef" = true ∧
    saveSettingsAccepts "ntn_abcdef" "12345678-1234-1234-1234-123456789abc" =
      false := by
  decide

/-- C9 (amended): validation accepts exactly when the trimmed token
starts with one of the two recognized prefixes AND the trimmed identifier
itself (hyphens included) has length exactly 32 AND its hyphen-stripped
form is a nonempty string of hex characters — so hyphens are tolerated
only within a 32-character identifier, not in the 36-character UUID
form. -/
theorem saveSettings_accept_iff (tokenInput dbInput : String) :
    saveSettingsAccepts tokenInput dbInput =
      (isSupportedToken (jsTrim tokenInput) &&
       decide ((jsTrim dbInput).length = 32) &&
       hexTest (stripHyphens (jsTrim dbInput))) := by
  have key : ∀ token databaseId : String,
      (if token = "" || databaseId = "" then false
       else if !isSupportedToken token then false
       else if !(databaseId.length = 32 : Bool) || !hexTest (stripHyphens databaseId)
         then false
       else true) =
      (isSupportedToken token && decide (databaseId.length = 32) &&
       hexTest (stripHyphens databaseId)) := by
    intro token databaseId
    by_cases h1 : token = ""
    · simp [h1, isSupportedToken_empty]
    · by_cases h2 : databaseId = ""
      · simp [h1, h2, empty_length_not_32]
      · cases h3 : isSupportedToken token with
        | false => simp [h1, h2, h3]
        | true =>
          cases h4 : (databaseId.length = 32 : Bool) with
          | false => simp [h1, h2, h3, h4]
          | true =>
            cases h5 : hexTest (stripHyphens databaseId) with
            | false => simp [h1, h2, h3, h4, h5]
            | true => simp [h1, h2, h3, h4, h5]
  exact key (jsTrim tokenInput) (jsTrim dbInput)

/-- C10 (counterexample): when every DOM selector comes back empty and
the embedded-script fallback captures the name `Array` twice, the
produced tag list is `["Array", "Array"]` — the fallback path performs no
deduplication. -/
theorem extractTags_script_path_duplicates :
    extractTags [] ["Array", "Array"] = ["Array", "Array"] ∧
    ¬ (extractTags [] ["Array", "Array"]).Nodup := by
  decide

/-- C10 (amended): the DOM-selector path produces a duplicate-free tag
list (every `domTagsLoop` result is `Nodup`), and whenever the DOM path
produced any tags the script fallback is skipped, so the extraction
result is that duplicate-free list; only the embedded-script fallback can
introduce duplicates. -/
theorem extractTags_dom_path_nodup :
    (∀ sels : List (List String), (domTagsLoop [] sels).Nodup) ∧
    ∀ (sels : List (List String)) (names : List String),
      domTagsLoop [] sels ≠ [] → extractTags sels names = domTagsLoop [] sels := by
  constructor
  · intro sels
    exact domTagsLoop_nodup sels [] List.nodup_nil
  · intro sels names hne
    have hlen : (domTagsLoop [] sels).length ≠ 0 := by
      simpa [List.length_eq_zero] using hne
    simp [extractTags, hlen]

/-- C10 (witness): one DOM selector matching one tag keeps the fallback
names out of the result. -/
theorem extractTags_dom_path_nodup_witness :
    domTagsLoop [] [["Array"]] ≠ [] ∧
    extractTags [["Array"]] ["Graph", "Graph"] = domTagsLoop [] [["Array"]] :=
  ⟨by decide, extractTags_dom_path_nodup.2 [["Array"]] ["Graph", "Graph"] (by decide)⟩
